import Mathlib

/-!
Shallow embedding of the campaign-generation pipeline of `src/main.py`
(an email drip-campaign service built on pydantic models, a prompt builder,
a completion parser/normalizer, a campaign orchestrator and a CSV exporter).

External collaborators are modelled as parameters:
* the generative-text call composed with `json.loads` is an oracle
  `String → Except Unit CompletionData` (an `Except.error` models
  `json.JSONDecodeError`; dictionary values are modelled at the Python types
  the handler reads them at);
* `random.choice(["A", "B"])` draws are an injected source `Nat → Group`
  (the i-th contact of an account receives the i-th draw).

Python exceptions raised by the handlers are modelled by the `PyError` type
and explicit `Except` results; FastAPI's pydantic validation of the request
body, which runs before the handler, is modelled by the `valid` predicates
and an explicit endpoint wrapper.
-/

deriving instance DecidableEq for Except

namespace MainPy

/-- `Literal["A", "B"]` of `Contact.group`. -/
inductive Group where
  | A
  | B
deriving DecidableEq

/-- `Contact(BaseModel)`: `group: Literal["A", "B"] = "A"`.
`email: EmailStr` delegates address-syntax checking to pydantic's email
library; it is kept as the raw string here (it is not a numeric/length
bound and no claim depends on its syntax rule). -/
structure Contact where
  name : String
  email : String
  job_title : String
  group : Group := Group.A
deriving DecidableEq

/-- `Literal["awareness", "nurturing", "upselling"]`. -/
inductive CampaignObjective where
  | awareness
  | nurturing
  | upselling
deriving DecidableEq

/-- The string value the pydantic `Literal` holds, as rendered in f-strings. -/
def CampaignObjective.str : CampaignObjective → String
  | .awareness => "awareness"
  | .nurturing => "nurturing"
  | .upselling => "upselling"

/-- `Literal["formal", "casual", "enthusiastic", "neutral"]`, default `"neutral"`. -/
inductive Tone where
  | formal
  | casual
  | enthusiastic
  | neutral
deriving DecidableEq

/-- The string value the pydantic `Literal` holds. -/
def Tone.str : Tone → String
  | .formal => "formal"
  | .casual => "casual"
  | .enthusiastic => "enthusiastic"
  | .neutral => "neutral"

/-- `Account(BaseModel)` of `src/main.py`. -/
structure Account where
  account_name : String
  industry : String
  pain_points : List String
  contacts : List Contact
  campaign_objective : CampaignObjective
  interest : String
  tone : Tone := Tone.neutral
  language : String
deriving DecidableEq

/-- `EmailVariant(BaseModel)`. -/
structure EmailVariant where
  subject : String
  body : String
  call_to_action : String
  sub_variants : List String := []
  suggested_send_time : String
deriving DecidableEq, Inhabited

/-- `Email(BaseModel)`. -/
structure Email where
  variants : List EmailVariant
deriving DecidableEq, Inhabited

/-- `Campaign(BaseModel)`. -/
structure Campaign where
  account_name : String
  emails : List Email
deriving DecidableEq, Inhabited

/-- `CampaignRequest(BaseModel)`. `number_of_emails` is a Python `int`,
so it is `Int` here; the bounds `gt=0, le=10` live in `valid` below. -/
structure CampaignRequest where
  accounts : List Account
  number_of_emails : Int
deriving DecidableEq

/-- `CampaignResponse(BaseModel)`. -/
structure CampaignResponse where
  campaigns : List Campaign
deriving DecidableEq

/-- The pydantic `Field` constraints of `Contact` (lines 23-27):
`name` and `job_title` each 1..100 characters. -/
def Contact.valid (c : Contact) : Bool :=
  1 ≤ c.name.length && c.name.length ≤ 100 &&
  1 ≤ c.job_title.length && c.job_title.length ≤ 100

/-- The pydantic `Field` constraints of `Account` (lines 29-39):
`account_name` 1..200, `industry` 1..100, 1..5 `pain_points`,
at least one contact, `interest` 1..100, `language` 1..200. -/
def Account.valid (a : Account) : Bool :=
  1 ≤ a.account_name.length && a.account_name.length ≤ 200 &&
  1 ≤ a.industry.length && a.industry.length ≤ 100 &&
  1 ≤ a.pain_points.length && a.pain_points.length ≤ 5 &&
  1 ≤ a.contacts.length && a.contacts.all Contact.valid &&
  1 ≤ a.interest.length && a.interest.length ≤ 100 &&
  1 ≤ a.language.length && a.language.length ≤ 200

/-- The pydantic `Field` constraints of `CampaignRequest` (lines 55-57):
1..10 accounts, each itself valid, and `number_of_emails` in 1..10. -/
def CampaignRequest.valid (r : CampaignRequest) : Bool :=
  1 ≤ r.accounts.length && r.accounts.length ≤ 10 &&
  r.accounts.all Account.valid &&
  0 < r.number_of_emails && r.number_of_emails ≤ 10

/-- The Python exceptions that can leave the handlers of `src/main.py`:
`fastapi.HTTPException(status_code, detail)`, `IndexError` from indexing an
empty list, and `KeyError` from a missing dictionary key. -/
inductive PyError where
  | httpExc (status : Int) (detail : String)
  | indexError
  | keyError (key : String)
deriving DecidableEq

/-- Python `str(e)` for the exceptions above, as used by
`f"Unexpected error: {str(e)}"`: starlette's `HTTPException.__str__` renders
`"{status_code}: {detail}"`, `str(IndexError(...))` from `list[0]` is
`"list index out of range"`, and `str(KeyError(k))` is `"'k'"`. -/
def pyStr : PyError → String
  | .httpExc status detail => toString status ++ ": " ++ detail
  | .indexError => "list index out of range"
  | .keyError key => "'" ++ key ++ "'"

/-- The parsed JSON dictionary `email_data = json.loads(response_text)` as
read by `generate_email_content`: `.get("subject", [])` (a `none` models an
absent key), `email_data["body"]` and `email_data["call_to_action"]`
(an absent key raises `KeyError`). -/
structure CompletionData where
  subject : Option (List String)
  body : Option String
  call_to_action : Option String
deriving DecidableEq

/-- The generative-text call plus `json.loads`, as a black box from the
prompt string to either a decode failure or the parsed dictionary. -/
def GenOracle : Type := String → Except Unit CompletionData

/-- Python `s.replace("\n", "")` (lines 143-144): every newline character is
removed, with nothing substituted. -/
def removeNewlines (s : String) : String :=
  String.mk (s.data.filter (fun c => c != '\n'))

/-- Python `s.lower()`, character by character (the industry values compared
against are ASCII). -/
def pyLower (s : String) : String :=
  String.mk (s.data.map Char.toLower)

/-- The f-string prompt of `generate_email_content` (lines 87-107), with the
source's indentation preserved. `account.contacts[0].job_title` is guarded in
`generate_email_content` (an empty contact list raises `IndexError` before
this string is completed), so the `head?` default is never reached there. -/
def buildPrompt (account : Account) (email_number total_emails : Int)
    (tone : String) : String :=
  "\n    Create a personalized email for the following business account:"
  ++ "\n    Company: " ++ account.account_name
  ++ "\n    Industry: " ++ account.industry
  ++ "\n    Pain Points: " ++ String.intercalate ", " account.pain_points
  ++ "\n    Campaign Stage: Email " ++ toString email_number ++ " of "
    ++ toString total_emails
  ++ "\n    Campaign Objective: " ++ account.campaign_objective.str
  ++ "\n    Recipient Job Title: "
    ++ ((account.contacts.head?.map Contact.job_title).getD "")
  ++ "\n    Interest: " ++ account.interest
  ++ "\n    Tone: " ++ tone
  ++ "\n    Language: " ++ account.language
  ++ "\n\n    Generate a catchy and engaging subject line, personalized for the account and campaign objective. Please generate **three distinct subject lines**."
  ++ "\n\n    Then, write the email body content with the following structure:"
  ++ "\n    1. An engaging email body personalized to the pain points and interest of the account"
  ++ "\n    2. A clear call-to-action encouraging the recipient to take the next step."
  ++ "\n    3. Ensure the body is cohesive and flows well with the subject."
  ++ "\n\n    Format the response as valid JSON with keys: \"subject\", \"body\", \"call_to_action\"\n    "

/-- The industry-keyed send-time rule of `generate_email_content`
(lines 126-138). -/
def recommended_send_time (industry : String) : String :=
  if pyLower industry ∈ ["technology", "software"] then
    "8 AM - 10 AM"
  else if pyLower industry ∈ ["retail", "e-commerce"] then
    "1 PM - 3 PM"
  else
    "6 PM - 8 PM"

/-- `generate_email_content` (lines 83-148).  The error paths, in the
source's evaluation order: the explicit tone check; `account.contacts[0]`
inside the f-string (`IndexError` on an empty contact list);
`json.JSONDecodeError` re-raised as HTTP 500; `sub_variants[0]`
(`IndexError` when the candidate list is empty); `email_data["body"]` and
`email_data["call_to_action"]` (`KeyError` when absent — keyword arguments
are evaluated left to right). -/
def generate_email_content (oracle : GenOracle) (account : Account)
    (email_number total_emails : Int) (tone : String) :
    Except PyError (List EmailVariant) :=
  if tone ∉ ["formal", "casual", "enthusiastic", "neutral"] then
    .error (.httpExc 400
      "Invalid tone provided. Must be one of: formal, casual, enthusiastic, neutral.")
  else if account.contacts.isEmpty then
    .error .indexError
  else
    match oracle (buildPrompt account email_number total_emails tone) with
    | .error _ => .error (.httpExc 500 "Invalid JSON response from Cohere")
    | .ok email_data =>
      let sub_variants := email_data.subject.getD []
      let salutation := "Best regards,The " ++ account.account_name ++ " Team"
      match sub_variants with
      | [] => .error .indexError
      | first :: _ =>
        match email_data.body with
        | none => .error (.keyError "body")
        | some b =>
          match email_data.call_to_action with
          | none => .error (.keyError "call_to_action")
          | some cta =>
            .ok [{ subject := first,
                   body := removeNewlines b,
                   call_to_action :=
                     removeNewlines cta ++ removeNewlines salutation,
                   sub_variants := sub_variants,
                   suggested_send_time :=
                     recommended_send_time account.industry }]

/-- `for contact in account.contacts: contact.group = random.choice(["A","B"])`
(lines 152-153), with the i-th draw taken from the injected source. -/
def assignGroups (rng : Nat → Group) (contacts : List Contact) : List Contact :=
  contacts.mapIdx (fun i c => { c with group := rng i })

/-- The account as `generate_campaign` sees it after the group
reassignment loop. -/
def withGroups (account : Account) (rng : Nat → Group) : Account :=
  { account with contacts := assignGroups rng account.contacts }

/-- The per-stage loop of `generate_campaign` (lines 155-158), one recursion
step per `i in range(number_of_emails)`; the `Except` bind models the
exception propagating out of the loop. -/
def genEmails (oracle : GenOracle) (account : Account) (total_emails : Int)
    (tone : String) : List Nat → Except PyError (List Email)
  | [] => .ok []
  | i :: rest => do
    let email_variants ←
      generate_email_content oracle account ((i : Int) + 1) total_emails tone
    let tail ← genEmails oracle account total_emails tone rest
    pure (Email.mk email_variants :: tail)

/-- `generate_campaign` (lines 150-160).  The contact groups are reassigned
(in place, in the source) before any generation call runs, so the returned
pair carries both the `Campaign` and the mutated `Account`.  Python's
`account.tone if account.tone else "neutral"` always takes the first branch:
a `Literal` string field is never falsy. -/
def generate_campaign (rng : Nat → Group) (oracle : GenOracle)
    (account : Account) (number_of_emails : Int) :
    Except PyError (Campaign × Account) :=
  let account' := { account with contacts := assignGroups rng account.contacts }
  let tone := account'.tone.str
  (genEmails oracle account' number_of_emails tone
      (List.range number_of_emails.toNat)).map
    (fun emails => (Campaign.mk account'.account_name emails, account'))

/-- The list comprehension of `generate_campaigns` (lines 173-176), one step
per account; the account index selects that account's stream of random
draws. -/
def genCampaignList (oracle : GenOracle) (rngs : Nat → Nat → Group)
    (number_of_emails : Int) :
    List (Nat × Account) → Except PyError (List Campaign)
  | [] => .ok []
  | (idx, account) :: rest => do
    let c ← generate_campaign (rngs idx) oracle account number_of_emails
    let tail ← genCampaignList oracle rngs number_of_emails rest
    pure (c.1 :: tail)

/-- `generate_campaigns` (lines 168-179): the comprehension, with any
exception caught by `except Exception as e` and re-raised as
`HTTPException(500, f"Unexpected error: {str(e)}")`. -/
def generate_campaigns (oracle : GenOracle) (rngs : Nat → Nat → Group)
    (request : CampaignRequest) : Except PyError CampaignResponse :=
  match genCampaignList oracle rngs request.number_of_emails
      request.accounts.enum with
  | .ok campaigns => .ok (CampaignResponse.mk campaigns)
  | .error e => .error (.httpExc 500 ("Unexpected error: " ++ pyStr e))

/-- The `POST /generate-campaigns/` boundary: FastAPI validates the request
body against the pydantic models before the handler runs, so an out-of-range
request is rejected (HTTP 422, whose structured detail is modelled by a
fixed string) without the handler — hence without any oracle call. -/
def generate_campaigns_endpoint (oracle : GenOracle)
    (rngs : Nat → Nat → Group) (request : CampaignRequest) :
    Except PyError CampaignResponse :=
  if request.valid then
    generate_campaigns oracle rngs request
  else
    .error (.httpExc 422 "request validation error")

/-- The header row written by `export_campaigns_csv` (line 194). -/
def csvHeader : List String :=
  ["Account Name", "Email Number", "Variant", "Subject", "Sub-Variants",
   "Body", "Call to Action", "Recommended Send Time"]

/-- `export_campaigns_csv` (lines 192-208), as the list of rows handed to
`csv.writer.writerow`: the header, then the nested
`for campaign / for email_idx, email in enumerate(campaign.emails, 1) /
for variant_idx, variant in enumerate(email.variants, 1)` loops. -/
def export_campaigns_csv (resp : CampaignResponse) : List (List String) :=
  csvHeader :: resp.campaigns.flatMap (fun campaign =>
    (campaign.emails.mapIdx (fun email_idx email =>
      email.variants.mapIdx (fun variant_idx variant =>
        [campaign.account_name,
         "Email " ++ toString (email_idx + 1),
         "Variant " ++ toString (variant_idx + 1),
         variant.subject,
         String.intercalate "; " variant.sub_variants,
         variant.body,
         variant.call_to_action,
         variant.suggested_send_time]))).flatten)

/-- Unfolding helper: the character list of `String.mk`. -/
theorem data_mk (m : List Char) : (String.mk m).data = m := rfl

/-! Concrete fixtures used by witnesses and counterexamples. -/

/-- A valid account (the end-to-end example of the spec). -/
def acct1 : Account :=
  { account_name := "Acme Corp", industry := "Technology",
    pain_points := ["slow onboarding"],
    contacts := [{ name := "Jo", email := "jo@acme.example", job_title := "CTO" }],
    campaign_objective := .awareness, interest := "automation",
    tone := .formal, language := "English" }

/-- An oracle whose completion always parses into a well-shaped dictionary. -/
def okOracle : GenOracle :=
  fun _ => .ok { subject := some ["s1", "s2", "s3"], body := some "b",
                 call_to_action := some "c" }

/-- An oracle whose completion never parses as JSON. -/
def badJsonOracle : GenOracle := fun _ => .error ()

/-- An oracle whose completion parses but yields zero subject candidates. -/
def emptySubjectOracle : GenOracle :=
  fun _ => .ok { subject := some [], body := some "b", call_to_action := some "c" }

/-! Claim theorems. -/

/-- Claim C8: the Prompt Builder is deterministic — built twice from
identical `(account, email_number, total_emails, tone)` inputs, the
instruction string is identical.  `buildPrompt` embeds the f-string of
lines 87-107 as a pure function of exactly these inputs, so the two builds
agree definitionally: there is no randomness and no hidden state to vary. -/
theorem c8_prompt_builder_deterministic (account : Account)
    (email_number total_emails : Int) (tone : String) :
    buildPrompt account email_number total_emails tone =
      buildPrompt account email_number total_emails tone := rfl

/-- Claim C2: `suggested_send_time` is a total function of
`Account.industry` into the three fixed labels: lower-cased industry
`"technology"`/`"software"` gives `"8 AM - 10 AM"`, `"retail"`/
`"e-commerce"` gives `"1 PM - 3 PM"`, and every other string gives
`"6 PM - 8 PM"`. -/
theorem c2_send_time_rule (industry : String) :
    (recommended_send_time industry = "8 AM - 10 AM" ∨
     recommended_send_time industry = "1 PM - 3 PM" ∨
     recommended_send_time industry = "6 PM - 8 PM")
    ∧ (pyLower industry ∈ ["technology", "software"] →
        recommended_send_time industry = "8 AM - 10 AM")
    ∧ (pyLower industry ∈ ["retail", "e-commerce"] →
        recommended_send_time industry = "1 PM - 3 PM")
    ∧ (pyLower industry ∉ ["technology", "software"] →
        pyLower industry ∉ ["retail", "e-commerce"] →
        recommended_send_time industry = "6 PM - 8 PM") := by
  unfold recommended_send_time
  refine ⟨?_, ?_, ?_, ?_⟩
  · split_ifs <;> simp
  · intro h; rw [if_pos h]
  · intro h
    have h1 : pyLower industry ∉ ["technology", "software"] := by
      intro hmem
      simp only [List.mem_cons, List.not_mem_nil, or_false] at h hmem
      rcases h with h | h <;> rcases hmem with hm | hm <;> rw [h] at hm <;>
        exact absurd hm (by decide)
    rw [if_neg h1, if_pos h]
  · intro h1 h2; rw [if_neg h1, if_neg h2]

/-- Witness for C2 at the spec's example industries. -/
theorem c2_send_time_rule_witness :
    pyLower "Software" ∈ ["technology", "software"]
    ∧ recommended_send_time "Software" = "8 AM - 10 AM"
    ∧ recommended_send_time "Retail" = "1 PM - 3 PM"
    ∧ recommended_send_time "Healthcare" = "6 PM - 8 PM" :=
  ⟨by decide, (c2_send_time_rule "Software").2.1 (by decide),
   (c2_send_time_rule "Retail").2.2.1 (by decide),
   (c2_send_time_rule "Healthcare").2.2.2 (by decide) (by decide)⟩

/-- Claim C7: the newline cleanup (`.replace("\x5cn", "")` of lines 143-144)
is idempotent, is the identity on text with no embedded newline, leaves no
newline in its output, and does not substitute spaces (or any other
character) for the removed newlines: the count of every non-newline
character is preserved. -/
theorem c7_newline_cleanup (s : String) :
    removeNewlines (removeNewlines s) = removeNewlines s
    ∧ ('\n' ∉ s.data → removeNewlines s = s)
    ∧ '\n' ∉ (removeNewlines s).data
    ∧ (∀ c : Char, c ≠ '\n' →
        (removeNewlines s).data.count c = s.data.count c) := by
  obtain ⟨l⟩ := s
  simp only [removeNewlines, data_mk]
  refine ⟨?_, ?_, ?_, ?_⟩
  · exact congrArg String.mk
      (List.filter_eq_self.mpr
        (fun a ha => @List.of_mem_filter _ (fun c => c != '\n') a _ ha))
  · intro h
    exact congrArg String.mk
      (List.filter_eq_self.mpr (fun a ha => bne_iff_ne.mpr (fun heq => h (heq ▸ ha))))
  · intro hmem
    have hp := List.of_mem_filter hmem
    simp at hp
  · intro c hc
    exact List.count_filter (by simpa using hc)

/-- Witness for C7 at concrete strings. -/
theorem c7_newline_cleanup_witness :
    ('\n' ∉ "abc".data) ∧ removeNewlines "abc" = "abc"
    ∧ removeNewlines (removeNewlines "a\nb") = removeNewlines "a\nb"
    ∧ (' ' ≠ '\n')
    ∧ (removeNewlines "a \nb c").data.count ' ' = "a \nb c".data.count ' ' :=
  ⟨by decide, (c7_newline_cleanup "abc").2.1 (by decide),
   (c7_newline_cleanup "a\nb").1, by decide,
   (c7_newline_cleanup "a \nb c").2.2.2 ' ' (by decide)⟩

/-- The single variant `generate_email_content` builds from `okOracle` and
`acct1` (used by witnesses). -/
def acmeVariant : EmailVariant :=
  { subject := "s1", body := "b",
    call_to_action := "cBest regards,The Acme Corp Team",
    sub_variants := ["s1", "s2", "s3"], suggested_send_time := "8 AM - 10 AM" }

/-- Claim C3: whenever the parser constructs an `EmailVariant`, its
`subject` is the first entry of the full candidate list stored in
`sub_variants`; and when the parsed completion yields zero subject
candidates, the call fails (`sub_variants[0]` raises) instead of producing
a variant with a default subject. -/
theorem c3_subject_candidates (oracle : GenOracle) (account : Account)
    (email_number total_emails : Int) (tone : String) (d : CompletionData)
    (htone : tone ∈ ["formal", "casual", "enthusiastic", "neutral"])
    (hcontacts : account.contacts.isEmpty = false)
    (hor : oracle (buildPrompt account email_number total_emails tone) = .ok d) :
    (d.subject.getD [] = [] →
      generate_email_content oracle account email_number total_emails tone =
        .error .indexError)
    ∧ (∀ vs,
        generate_email_content oracle account email_number total_emails tone =
          .ok vs →
        ∃ v, vs = [v] ∧ v.sub_variants = d.subject.getD [] ∧
          v.sub_variants ≠ [] ∧ v.subject = v.sub_variants.headD "") := by
  unfold generate_email_content
  rw [if_neg (not_not_intro htone), if_neg (by simp [hcontacts]), hor]
  constructor
  · intro hempty
    simp only [hempty]
  · intro vs hvs
    rcases hd : d.subject.getD [] with _ | ⟨first, rest⟩
    · simp [hd] at hvs
    · rcases hb : d.body with _ | b
      · simp [hd, hb] at hvs
      · rcases hcta : d.call_to_action with _ | cta
        · simp [hd, hb, hcta] at hvs
        · simp only [hd, hb, hcta, Except.ok.injEq] at hvs
          exact ⟨_, hvs.symm, rfl, by simp, rfl⟩

/-- Witness for C3: with zero candidates the call fails; with three
candidates the variant's subject is the head of the stored candidate
list. -/
theorem c3_subject_candidates_witness :
    (generate_email_content emptySubjectOracle acct1 1 1 "neutral" =
      .error .indexError)
    ∧ ∃ v, [acmeVariant] = [v] ∧
        v.sub_variants =
          (CompletionData.mk (some ["s1", "s2", "s3"]) (some "b")
            (some "c")).subject.getD [] ∧
        v.sub_variants ≠ [] ∧ v.subject = v.sub_variants.headD "" := by
  constructor
  · exact (c3_subject_candidates emptySubjectOracle acct1 1 1 "neutral"
      (CompletionData.mk (some []) (some "b") (some "c"))
      (by decide) (by decide) rfl).1 rfl
  · exact (c3_subject_candidates okOracle acct1 1 1 "neutral"
      (CompletionData.mk (some ["s1", "s2", "s3"]) (some "b") (some "c"))
      (by decide) (by decide) rfl).2 [acmeVariant] (by decide)

/-- Counterexample to C6 as stated: with a (pydantic-valid) account name
containing an embedded newline, the appended text is NOT the literal
salutation with the name substituted — the source also strips newlines out
of the salutation (`salutation.replace("\x5cn", "")`, line 144), so the
newline inside the name disappears. -/
theorem c6_salutation_counterexample :
    Account.valid { acct1 with account_name := "Acme\nCorp" } = true
    ∧ (generate_email_content okOracle
        { acct1 with account_name := "Acme\nCorp" } 1 1 "neutral").map
          (List.map EmailVariant.call_to_action)
        = .ok ["cBest regards,The AcmeCorp Team"]
    ∧ "cBest regards,The AcmeCorp Team" ≠
        removeNewlines "c" ++
          ("Best regards,The " ++ "Acme\nCorp" ++ " Team") := by
  refine ⟨by decide, by decide, by decide⟩

/-- Claim C6 amended: every constructed variant's `call_to_action` is the
upstream `call_to_action` with newlines stripped, followed directly (no
separator) by the salutation `"Best regards,The {account_name} Team"`
itself newline-stripped (so newlines inside `account_name` are removed as
well). -/
theorem c6_cta_salutation (oracle : GenOracle) (account : Account)
    (email_number total_emails : Int) (tone : String) (vs : List EmailVariant)
    (h : generate_email_content oracle account email_number total_emails tone =
      .ok vs) :
    ∀ v ∈ vs, ∃ d cta,
      oracle (buildPrompt account email_number total_emails tone) = .ok d ∧
      d.call_to_action = some cta ∧
      v.call_to_action =
        removeNewlines cta ++
          removeNewlines
            ("Best regards,The " ++ account.account_name ++ " Team") := by
  unfold generate_email_content at h
  split at h
  · exact absurd h (by simp)
  · split at h
    · exact absurd h (by simp)
    · rename_i hne hcontacts
      rcases hor : oracle (buildPrompt account email_number total_emails tone)
        with e | d
      · rw [hor] at h; exact absurd h (by simp)
      · rw [hor] at h
        rcases hd : d.subject.getD [] with _ | ⟨first, rest⟩
        · simp [hd] at h
        · rcases hb : d.body with _ | b
          · simp [hd, hb] at h
          · rcases hcta : d.call_to_action with _ | cta
            · simp [hd, hb, hcta] at h
            · simp only [hd, hb, hcta, Except.ok.injEq] at h
              intro v hv
              rw [← h] at hv
              simp only [List.mem_singleton] at hv
              exact ⟨d, cta, rfl, hcta, by rw [hv]⟩

/-- Witness for the amended C6 at a concrete account and oracle. -/
theorem c6_cta_salutation_witness :
    ∃ d cta,
      okOracle (buildPrompt acct1 1 1 "neutral") = .ok d ∧
      d.call_to_action = some cta ∧
      acmeVariant.call_to_action =
        removeNewlines cta ++
          removeNewlines
            ("Best regards,The " ++ acct1.account_name ++ " Team") :=
  (c6_cta_salutation okOracle acct1 1 1 "neutral" [acmeVariant] (by decide))
    acmeVariant (by decide)

/-! Shared helper lemmas. -/

/-- The string of a `Tone` literal is always one of the four allowed
values, so the explicit tone check of `generate_email_content` passes for
any tone coming from a validated `Account`. -/
theorem tone_str_mem (t : Tone) :
    t.str ∈ ["formal", "casual", "enthusiastic", "neutral"] := by
  cases t <;> simp [Tone.str]

/-- Group reassignment keeps the contact list's emptiness. -/
theorem assignGroups_isEmpty (rng : Nat → Group) (cs : List Contact) :
    (assignGroups rng cs).isEmpty = cs.isEmpty := by
  cases cs <;> simp [assignGroups]

/-- Group reassignment keeps the contact list's length. -/
theorem assignGroups_length (rng : Nat → Group) (cs : List Contact) :
    (assignGroups rng cs).length = cs.length := by
  simp [assignGroups]

/-- Group reassignment overwrites whatever group the caller supplied. -/
theorem assignGroups_map_group (rng : Nat → Group) (f : Contact → Group)
    (cs : List Contact) :
    assignGroups rng (cs.map (fun c => { c with group := f c })) =
      assignGroups rng cs := by
  unfold assignGroups
  apply List.ext_getElem
  · simp
  · intro n h1 h2
    simp only [List.getElem_mapIdx, List.getElem_map]

/-- A JSON-decode failure surfaces as the fixed HTTP 500 detail. -/
theorem gec_error_of_decode_failure (oracle : GenOracle) (account : Account)
    (email_number total_emails : Int) (tone : String)
    (htone : tone ∈ ["formal", "casual", "enthusiastic", "neutral"])
    (hc : account.contacts.isEmpty = false)
    (hbad : oracle (buildPrompt account email_number total_emails tone) =
      .error ()) :
    generate_email_content oracle account email_number total_emails tone =
      .error (.httpExc 500 "Invalid JSON response from Cohere") := by
  unfold generate_email_content
  rw [if_neg (not_not_intro htone), if_neg (by simp [hc]), hbad]

/-- Inversion for `Except.map` hitting `ok`. -/
theorem except_map_ok {α β γ : Type} (f : α → β) (x : Except γ α) (b : β)
    (h : x.map f = .ok b) : ∃ a, x = .ok a ∧ f a = b := by
  cases x with
  | error e => simp [Except.map] at h
  | ok a => exact ⟨a, rfl, by simpa [Except.map] using h⟩

/-- Claim C10: every contact's group is `"A"` or `"B"`; a contact built
without an explicit group defaults to `"A"`; and `generate_campaign`
overwrites every contact's group with the fresh draw for that position —
whatever group the caller supplied is discarded, and the account carried
through the campaign (and returned, modelling the in-place mutation) holds
exactly the drawn groups. -/
theorem c10_group_assignment :
    (∀ n e j, ({ name := n, email := e, job_title := j } : Contact).group =
      Group.A)
    ∧ (∀ c : Contact, c.group = Group.A ∨ c.group = Group.B)
    ∧ (∀ (rng : Nat → Group) (oracle : GenOracle) (account : Account)
        (number_of_emails : Int) (f : Contact → Group),
        generate_campaign rng oracle
          { account with contacts :=
              account.contacts.map (fun c => { c with group := f c }) }
          number_of_emails
        = generate_campaign rng oracle account number_of_emails)
    ∧ (∀ (rng : Nat → Group) (oracle : GenOracle) (account : Account)
        (number_of_emails : Int) (camp : Campaign) (acc' : Account),
        generate_campaign rng oracle account number_of_emails =
          .ok (camp, acc') →
        acc'.contacts.length = account.contacts.length ∧
        ∀ i (h : i < acc'.contacts.length),
          (acc'.contacts[i]).group = rng i) := by
  refine ⟨fun _ _ _ => rfl, ?_, ?_, ?_⟩
  · intro c
    cases hg : c.group
    · exact Or.inl rfl
    · exact Or.inr rfl
  · intro rng oracle account number_of_emails f
    unfold generate_campaign
    rw [assignGroups_map_group]
  · intro rng oracle account number_of_emails camp acc' h
    unfold generate_campaign at h
    obtain ⟨emails, hx, hf⟩ := except_map_ok _ _ _ h
    have hacc : acc' =
        { account with contacts := assignGroups rng account.contacts } :=
      (Prod.mk.injEq _ _ _ _ ▸ hf).2.symm
    subst hacc
    refine ⟨assignGroups_length rng account.contacts, ?_⟩
    intro i hi
    simp [assignGroups, List.getElem_mapIdx]

/-- An account with two contacts, both pre-assigned to group `"B"` by the
caller. -/
def twoContactAcct : Account :=
  { acct1 with contacts :=
      [{ name := "Jo", email := "jo@acme.example", job_title := "CTO",
         group := Group.B },
       { name := "Al", email := "al@acme.example", job_title := "CEO",
         group := Group.B }] }

/-- A deterministic stand-in for the stream of `random.choice` draws. -/
def altRng : Nat → Group := fun i => if i = 0 then Group.B else Group.A

/-- `twoContactAcct` after `generate_campaign` reassigned its groups from
`altRng`. -/
def reassignedAcct : Account :=
  { twoContactAcct with contacts :=
      [{ name := "Jo", email := "jo@acme.example", job_title := "CTO",
         group := Group.B },
       { name := "Al", email := "al@acme.example", job_title := "CEO",
         group := Group.A }] }

/-- Witness for C10 at concrete contacts, draws and oracle. -/
theorem c10_group_assignment_witness :
    (({ name := "n", email := "e", job_title := "j" } : Contact).group =
      Group.A)
    ∧ generate_campaign altRng okOracle
        { twoContactAcct with contacts :=
            twoContactAcct.contacts.map (fun c => { c with group := Group.A }) }
        1
      = generate_campaign altRng okOracle twoContactAcct 1
    ∧ reassignedAcct.contacts.length = twoContactAcct.contacts.length
    ∧ (reassignedAcct.contacts.get ⟨0, by decide⟩).group = altRng 0
    ∧ (reassignedAcct.contacts.get ⟨1, by decide⟩).group = altRng 1 := by
  have h4 := c10_group_assignment.2.2.2 altRng okOracle twoContactAcct 1
    (Campaign.mk "Acme Corp" [Email.mk [acmeVariant]]) reassignedAcct
    (by decide)
  exact ⟨c10_group_assignment.1 "n" "e" "j",
    c10_group_assignment.2.2.1 altRng okOracle twoContactAcct 1
      (fun _ => Group.A),
    h4.1, h4.2 0 (by decide), h4.2 1 (by decide)⟩

/-- Counterexample to C9 as stated: a decode failure on a validated
single-account request is reported with the fixed detail
`"Unexpected error: 500: Invalid JSON response from Cohere"`, which
contains neither the account name (available at the failing call) nor the
failing stage index 1 (no `"1"` occurs in it). -/
theorem c9_error_detail_counterexample :
    CampaignRequest.valid (CampaignRequest.mk [acct1] 1) = true
    ∧ generate_campaigns badJsonOracle (fun _ _ => Group.A)
        (CampaignRequest.mk [acct1] 1)
      = .error (.httpExc 500
          "Unexpected error: 500: Invalid JSON response from Cohere")
    ∧ ¬ List.IsInfix "Acme Corp".data
        "Unexpected error: 500: Invalid JSON response from Cohere".data
    ∧ ¬ List.IsInfix "1".data
        "Unexpected error: 500: Invalid JSON response from Cohere".data := by
  exact ⟨by decide, by decide, by decide, by decide⟩

/-- Claim C9 amended: failures are reported with a textual detail that
identifies the kind of failure, but not the failing account or stage: a
JSON-decode failure is raised as `"Invalid JSON response from Cohere"` and
wrapped at the request boundary as
`"Unexpected error: 500: Invalid JSON response from Cohere"` — one fixed
string for every account name, every stage index and every randomness
source. -/
theorem c9_error_detail (oracle : GenOracle) (rngs : Nat → Nat → Group)
    (a : Account) (rest : List Account) (n : Int)
    (hbad : ∀ p, oracle p = .error ())
    (hc : a.contacts.isEmpty = false) (hn : 0 < n) :
    generate_campaigns oracle rngs (CampaignRequest.mk (a :: rest) n) =
      .error (.httpExc 500
        "Unexpected error: 500: Invalid JSON response from Cohere") := by
  obtain ⟨m, hm⟩ : ∃ m, n.toNat = m + 1 := ⟨n.toNat - 1, by omega⟩
  have hc' : ({ a with contacts := assignGroups (rngs 0) a.contacts } :
      Account).contacts.isEmpty = false := by
    rw [show ({ a with contacts := assignGroups (rngs 0) a.contacts } :
      Account).contacts = assignGroups (rngs 0) a.contacts from rfl]
    rw [assignGroups_isEmpty]
    exact hc
  have hge : genEmails oracle
      { a with contacts := assignGroups (rngs 0) a.contacts } n a.tone.str
      (List.range n.toNat) =
      .error (.httpExc 500 "Invalid JSON response from Cohere") := by
    rw [hm, List.range_succ_eq_map]
    simp only [genEmails]
    rw [gec_error_of_decode_failure oracle _ _ n _ (tone_str_mem a.tone) hc'
      (hbad _)]
    rfl
  have hgc : generate_campaign (rngs 0) oracle a n =
      .error (.httpExc 500 "Invalid JSON response from Cohere") := by
    show (genEmails oracle
        { a with contacts := assignGroups (rngs 0) a.contacts } n a.tone.str
        (List.range n.toNat)).map _ = _
    rw [hge]
    rfl
  have hcl : genCampaignList oracle rngs n ((a :: rest).enum) =
      .error (.httpExc 500 "Invalid JSON response from Cohere") := by
    show genCampaignList oracle rngs n ((0, a) :: rest.enumFrom 1) = _
    simp only [genCampaignList]
    rw [hgc]
    rfl
  unfold generate_campaigns
  rw [hcl]
  decide

/-- Witness for the amended C9 at a concrete account and oracle. -/
theorem c9_error_detail_witness :
    (∀ p, badJsonOracle p = .error ())
    ∧ acct1.contacts.isEmpty = false ∧ (0 : Int) < 1
    ∧ generate_campaigns badJsonOracle (fun i _ => altRng i)
        (CampaignRequest.mk [acct1] 1) =
      .error (.httpExc 500
        "Unexpected error: 500: Invalid JSON response from Cohere") :=
  ⟨fun _ => rfl, by decide, by decide,
   c9_error_detail badJsonOracle (fun i _ => altRng i) acct1 [] 1
     (fun _ => rfl) (by decide) (by decide)⟩

/-- Counterexample to C4 as stated: the data model's bound that each pain
point is a non-empty string (spec §3, "1-5 non-empty strings") is NOT
enforced at construction.  `pain_points: List[str] = Field(..., min_items=1,
max_items=5)` (line 32) checks only the item count, so an account with
`pain_points = [""]` passes validation, and the pipeline then consults the
generation oracle — the endpoint's outcome depends on the oracle — so this
out-of-bound input reaches the external call instead of failing
validation. -/
theorem c4_validation_counterexample :
    ({ acct1 with pain_points := [""] } : Account).pain_points.all
        (fun p => 1 ≤ p.length) = false
    ∧ CampaignRequest.valid
        (CampaignRequest.mk [{ acct1 with pain_points := [""] }] 1) = true
    ∧ generate_campaigns_endpoint okOracle (fun _ _ => Group.A)
        (CampaignRequest.mk [{ acct1 with pain_points := [""] }] 1)
      ≠ generate_campaigns_endpoint badJsonOracle (fun _ _ => Group.A)
          (CampaignRequest.mk [{ acct1 with pain_points := [""] }] 1) := by
  exact ⟨by decide, by decide, by decide⟩

/-- Claim C4 amended: out-of-range input — 6 pain points, 11 accounts, or
`number_of_emails = 11` — fails validation; an invalid request is rejected
at the endpoint boundary with a validation error whose outcome is the same
for every oracle and randomness source (so no generation call can have been
attempted); and a request that passes validation satisfies every
numeric/length bound the code declares through its pydantic `Field`
constraints.  The data model's per-item bound that each pain point is
non-empty is not among them: an account with `pain_points = [""]` passes
validation (and proceeds to the external call, see the counterexample). -/
theorem c4_validation_boundary :
    CampaignRequest.valid
      (CampaignRequest.mk
        [{ acct1 with pain_points := ["p1", "p2", "p3", "p4", "p5", "p6"] }]
        5) = false
    ∧ CampaignRequest.valid
        (CampaignRequest.mk (List.replicate 11 acct1) 5) = false
    ∧ CampaignRequest.valid (CampaignRequest.mk [acct1] 11) = false
    ∧ (∀ (oracle oracle' : GenOracle) (rngs rngs' : Nat → Nat → Group)
        (request : CampaignRequest), request.valid = false →
        generate_campaigns_endpoint oracle rngs request =
          .error (.httpExc 422 "request validation error")
        ∧ generate_campaigns_endpoint oracle rngs request =
            generate_campaigns_endpoint oracle' rngs' request)
    ∧ (∀ request : CampaignRequest, request.valid = true →
        1 ≤ request.accounts.length ∧ request.accounts.length ≤ 10 ∧
        0 < request.number_of_emails ∧ request.number_of_emails ≤ 10 ∧
        ∀ a ∈ request.accounts,
          1 ≤ a.account_name.length ∧ a.account_name.length ≤ 200 ∧
          1 ≤ a.industry.length ∧ a.industry.length ≤ 100 ∧
          1 ≤ a.pain_points.length ∧ a.pain_points.length ≤ 5 ∧
          1 ≤ a.contacts.length ∧
          1 ≤ a.interest.length ∧ a.interest.length ≤ 100 ∧
          1 ≤ a.language.length ∧ a.language.length ≤ 200 ∧
          ∀ c ∈ a.contacts,
            1 ≤ c.name.length ∧ c.name.length ≤ 100 ∧
            1 ≤ c.job_title.length ∧ c.job_title.length ≤ 100)
    ∧ CampaignRequest.valid
        (CampaignRequest.mk [{ acct1 with pain_points := [""] }] 1) =
          true := by
  refine ⟨by decide, by decide, by decide, ?_, ?_, by decide⟩
  · intro oracle oracle' rngs rngs' request hreq
    unfold generate_campaigns_endpoint
    rw [if_neg (by simp [hreq]), if_neg (by simp [hreq])]
    exact ⟨rfl, rfl⟩
  · intro request hval
    unfold CampaignRequest.valid at hval
    simp only [Bool.and_eq_true, decide_eq_true_eq, List.all_eq_true] at hval
    obtain ⟨⟨⟨⟨h1, h2⟩, h3⟩, h4⟩, h5⟩ := hval
    refine ⟨h1, h2, h4, h5, ?_⟩
    intro a ha
    have hA := h3 a ha
    unfold Account.valid at hA
    simp only [Bool.and_eq_true, decide_eq_true_eq, List.all_eq_true] at hA
    obtain ⟨⟨⟨⟨⟨⟨⟨⟨⟨⟨⟨a1, a2⟩, a3⟩, a4⟩, a5⟩, a6⟩, a7⟩, a8⟩, a9⟩, a10⟩,
      a11⟩, a12⟩ := hA
    refine ⟨a1, a2, a3, a4, a5, a6, a7, a9, a10, a11, a12, ?_⟩
    intro c hc
    have hC := a8 c hc
    unfold Contact.valid at hC
    simp only [Bool.and_eq_true, decide_eq_true_eq] at hC
    obtain ⟨⟨⟨c1, c2⟩, c3⟩, c4⟩ := hC
    exact ⟨c1, c2, c3, c4⟩

/-- Witness for C4: the out-of-range request is rejected identically under
two different oracles/randomness sources, and a valid request satisfies the
bounds. -/
theorem c4_validation_boundary_witness :
    CampaignRequest.valid (CampaignRequest.mk [acct1] 11) = false
    ∧ (generate_campaigns_endpoint okOracle (fun _ _ => Group.A)
        (CampaignRequest.mk [acct1] 11) =
          .error (.httpExc 422 "request validation error")
       ∧ generate_campaigns_endpoint okOracle (fun _ _ => Group.A)
          (CampaignRequest.mk [acct1] 11) =
            generate_campaigns_endpoint badJsonOracle (fun _ _ => Group.B)
              (CampaignRequest.mk [acct1] 11))
    ∧ CampaignRequest.valid (CampaignRequest.mk [acct1] 1) = true
    ∧ 1 ≤ (CampaignRequest.mk [acct1] 1).accounts.length := by
  have h4 := c4_validation_boundary.2.2.2.1 okOracle badJsonOracle
    (fun _ _ => Group.A) (fun _ _ => Group.B)
    (CampaignRequest.mk [acct1] 11) (by decide)
  have h5 := c4_validation_boundary.2.2.2.2.1
    (CampaignRequest.mk [acct1] 1) (by decide)
  exact ⟨by decide, h4, by decide, h5.1⟩

/-- A well-shaped completion (nonempty candidate list, body and
call-to-action present) makes `generate_email_content` succeed. -/
theorem gec_ok_of_good_oracle (oracle : GenOracle) (account : Account)
    (email_number total_emails : Int) (tone : String)
    (htone : tone ∈ ["formal", "casual", "enthusiastic", "neutral"])
    (hc : account.contacts.isEmpty = false)
    (hok : ∀ p, ∃ d, oracle p = .ok d ∧ d.subject.getD [] ≠ [] ∧
      d.body.isSome ∧ d.call_to_action.isSome) :
    ∃ vs, generate_email_content oracle account email_number total_emails
      tone = .ok vs := by
  obtain ⟨d, hd, hs, hb, hcta⟩ :=
    hok (buildPrompt account email_number total_emails tone)
  obtain ⟨subj, bodyF, ctaF⟩ := d
  rcases subj with _ | sl
  · exact absurd rfl hs
  · rcases sl with _ | ⟨first, rest⟩
    · exact absurd rfl hs
    · rcases bodyF with _ | b
      · simp at hb
      · rcases ctaF with _ | cta
        · simp at hcta
        · unfold generate_email_content
          rw [if_neg (not_not_intro htone), if_neg (by simp [hc]), hd]
          exact ⟨_, rfl⟩

/-- The per-stage loop succeeds stage by stage, keeping the stage order:
the k-th produced `Email` is the output of the generation call for the
k-th listed stage. -/
theorem genEmails_ok (oracle : GenOracle) (account : Account)
    (total_emails : Int) (tone : String) (stages : List Nat)
    (hok : ∀ i ∈ stages, ∃ vs,
      generate_email_content oracle account ((i : Int) + 1) total_emails
        tone = .ok vs) :
    ∃ es, genEmails oracle account total_emails tone stages = .ok es ∧
      es.length = stages.length ∧
      ∀ k (hk : k < stages.length), ∃ vs,
        generate_email_content oracle account
          (((stages.get ⟨k, hk⟩ : Nat) : Int) + 1) total_emails tone =
          .ok vs ∧
        es[k]? = some (Email.mk vs) := by
  induction stages with
  | nil => exact ⟨[], rfl, rfl, fun k hk => absurd hk (by simp)⟩
  | cons i rest ih =>
    obtain ⟨vs, hvs⟩ := hok i (by simp)
    obtain ⟨es, hes, hlen, hidx⟩ := ih (fun j hj => hok j (by simp [hj]))
    refine ⟨Email.mk vs :: es, ?_, by simp [hlen], ?_⟩
    · simp only [genEmails]
      rw [hvs, hes]
      rfl
    · intro k hk
      cases k with
      | zero => exact ⟨vs, hvs, by simp⟩
      | succ q =>
        have hq : q < rest.length := by simpa using hk
        obtain ⟨vs', h1, h2⟩ := hidx q hq
        exact ⟨vs', by simpa using h1, by simpa using h2⟩

/-- With a well-shaped oracle, `generate_campaign` succeeds with one email
per stage, in ascending stage order, under the account's name. -/
theorem generate_campaign_ok (rng : Nat → Group) (oracle : GenOracle)
    (account : Account) (n : Int)
    (hc : account.contacts.isEmpty = false)
    (hok : ∀ p, ∃ d, oracle p = .ok d ∧ d.subject.getD [] ≠ [] ∧
      d.body.isSome ∧ d.call_to_action.isSome) :
    ∃ camp acc', generate_campaign rng oracle account n = .ok (camp, acc') ∧
      camp.account_name = account.account_name ∧
      camp.emails.length = n.toNat ∧
      ∀ j (hj : j < n.toNat), ∃ vs,
        camp.emails[j]? = some (Email.mk vs) ∧
        generate_email_content oracle (withGroups account rng)
          ((j : Int) + 1) n account.tone.str = .ok vs := by
  have hcA : ({ account with contacts := assignGroups rng account.contacts } :
      Account).contacts.isEmpty = false := by
    show (assignGroups rng account.contacts).isEmpty = false
    rw [assignGroups_isEmpty]; exact hc
  have hstages : ∀ i ∈ List.range n.toNat, ∃ vs,
      generate_email_content oracle
        { account with contacts := assignGroups rng account.contacts }
        ((i : Int) + 1) n account.tone.str = .ok vs :=
    fun i _ => gec_ok_of_good_oracle oracle _ _ n _
      (tone_str_mem account.tone) hcA hok
  obtain ⟨es, hes, hlen, hidx⟩ := genEmails_ok oracle
    { account with contacts := assignGroups rng account.contacts } n
    account.tone.str (List.range n.toNat) hstages
  refine ⟨Campaign.mk account.account_name es,
    { account with contacts := assignGroups rng account.contacts },
    ?_, rfl, by simp [hlen], ?_⟩
  · show (genEmails oracle
      { account with contacts := assignGroups rng account.contacts } n
      account.tone.str (List.range n.toNat)).map _ = _
    rw [hes]
    rfl
  · intro j hj
    have hj' : j < (List.range n.toNat).length := by simpa using hj
    obtain ⟨vs, h1, h2⟩ := hidx j hj'
    refine ⟨vs, h2, ?_⟩
    have : (List.range n.toNat).get ⟨j, hj'⟩ = j := by
      simp [List.getElem_range]
    rwa [this] at h1

/-- The account loop succeeds account by account, in input order, with the
account at position i drawing its groups from the i-th randomness
stream. -/
theorem genCampaignList_ok (oracle : GenOracle) (rngs : Nat → Nat → Group)
    (n : Int) (accounts : List Account) (k : Nat)
    (hacc : ∀ a ∈ accounts, a.contacts.isEmpty = false)
    (hok : ∀ p, ∃ d, oracle p = .ok d ∧ d.subject.getD [] ≠ [] ∧
      d.body.isSome ∧ d.call_to_action.isSome) :
    ∃ cs, genCampaignList oracle rngs n (accounts.enumFrom k) = .ok cs ∧
      cs.length = accounts.length ∧
      ∀ i (hi : i < accounts.length), ∃ camp, cs[i]? = some camp ∧
        camp.account_name = (accounts.get ⟨i, hi⟩).account_name ∧
        camp.emails.length = n.toNat ∧
        ∀ j (hj : j < n.toNat), ∃ vs,
          camp.emails[j]? = some (Email.mk vs) ∧
          generate_email_content oracle
            (withGroups (accounts.get ⟨i, hi⟩) (rngs (k + i)))
            ((j : Int) + 1) n (accounts.get ⟨i, hi⟩).tone.str = .ok vs := by
  induction accounts generalizing k with
  | nil => exact ⟨[], rfl, rfl, fun i hi => absurd hi (by simp)⟩
  | cons a rest ih =>
    obtain ⟨camp, acc', hgc, hname, hlen, hstage⟩ :=
      generate_campaign_ok (rngs k) oracle a n (hacc a (by simp)) hok
    obtain ⟨cs, hcs, hcslen, hcsidx⟩ :=
      ih (k + 1) (fun b hb => hacc b (by simp [hb]))
    refine ⟨camp :: cs, ?_, by simp [hcslen], ?_⟩
    · show genCampaignList oracle rngs n ((k, a) :: rest.enumFrom (k + 1)) = _
      simp only [genCampaignList]
      rw [hgc, hcs]
      rfl
    · intro i hi
      cases i with
      | zero =>
        refine ⟨camp, by simp, hname, hlen, ?_⟩
        intro j hj
        obtain ⟨vs, h1, h2⟩ := hstage j hj
        exact ⟨vs, h1, by simpa using h2⟩
      | succ q =>
        have hq : q < rest.length := by simpa using hi
        obtain ⟨camp', h1, h2, h3, h4⟩ := hcsidx q hq
        refine ⟨camp', by simpa using h1, h2, h3, ?_⟩
        intro j hj
        obtain ⟨vs, hv1, hv2⟩ := h4 j hj
        have harith : k + 1 + q = k + (q + 1) := by omega
        rw [harith] at hv2
        exact ⟨vs, hv1, hv2⟩

/-- Claim C1: on a valid request where every generation call succeeds, the
response has exactly one campaign per input account, in input order
(position i carries the name of account i), and each campaign's email list
has exactly `number_of_emails` entries, the j-th of which is the output of
the generation call for stage j+1 (ascending stage order). -/
theorem c1_response_shape (oracle : GenOracle) (rngs : Nat → Nat → Group)
    (request : CampaignRequest)
    (hvalid : request.valid = true)
    (hok : ∀ p, ∃ d, oracle p = .ok d ∧ d.subject.getD [] ≠ [] ∧
      d.body.isSome ∧ d.call_to_action.isSome) :
    ∃ resp, generate_campaigns oracle rngs request = .ok resp ∧
      resp.campaigns.length = request.accounts.length ∧
      ∀ i (hi : i < request.accounts.length), ∃ camp,
        resp.campaigns[i]? = some camp ∧
        camp.account_name = (request.accounts.get ⟨i, hi⟩).account_name ∧
        camp.emails.length = request.number_of_emails.toNat ∧
        ∀ j (hj : j < request.number_of_emails.toNat), ∃ vs,
          camp.emails[j]? = some (Email.mk vs) ∧
          generate_email_content oracle
            (withGroups (request.accounts.get ⟨i, hi⟩) (rngs i))
            ((j : Int) + 1) request.number_of_emails
            (request.accounts.get ⟨i, hi⟩).tone.str = .ok vs := by
  have hacc : ∀ a ∈ request.accounts, a.contacts.isEmpty = false := by
    intro a ha
    unfold CampaignRequest.valid at hvalid
    simp only [Bool.and_eq_true, decide_eq_true_eq, List.all_eq_true]
      at hvalid
    have hA := hvalid.1.1.2 a ha
    unfold Account.valid at hA
    simp only [Bool.and_eq_true, decide_eq_true_eq] at hA
    have hlen := hA.1.1.1.1.1.2
    cases hcs : a.contacts with
    | nil => rw [hcs] at hlen; simp at hlen
    | cons c cs => rfl
  obtain ⟨cs, hcs, hlen, hidx⟩ := genCampaignList_ok oracle rngs
    request.number_of_emails request.accounts 0 hacc hok
  refine ⟨CampaignResponse.mk cs, ?_, by simpa using hlen, ?_⟩
  · unfold generate_campaigns
    rw [show request.accounts.enum = request.accounts.enumFrom 0 from rfl,
      hcs]
  · intro i hi
    obtain ⟨camp, h1, h2, h3, h4⟩ := hidx i hi
    refine ⟨camp, h1, h2, h3, ?_⟩
    intro j hj
    obtain ⟨vs, hv1, hv2⟩ := h4 j hj
    rw [show (0 : Nat) + i = i from by omega] at hv2
    exact ⟨vs, hv1, hv2⟩

/-- Witness for C1: the spec's end-to-end example — one account, one email
slot, a well-shaped oracle. -/
theorem c1_response_shape_witness :
    CampaignRequest.valid (CampaignRequest.mk [acct1] 1) = true
    ∧ ∃ resp,
        generate_campaigns okOracle (fun _ _ => Group.A)
          (CampaignRequest.mk [acct1] 1) = .ok resp ∧
        resp.campaigns.length =
          (CampaignRequest.mk [acct1] 1).accounts.length ∧
        ∀ i (hi : i < (CampaignRequest.mk [acct1] 1).accounts.length),
          ∃ camp, resp.campaigns[i]? = some camp ∧
            camp.account_name =
              ((CampaignRequest.mk [acct1] 1).accounts.get
                ⟨i, hi⟩).account_name ∧
            camp.emails.length =
              (CampaignRequest.mk [acct1] 1).number_of_emails.toNat ∧
            ∀ j (hj : j <
                (CampaignRequest.mk [acct1] 1).number_of_emails.toNat),
              ∃ vs, camp.emails[j]? = some (Email.mk vs) ∧
                generate_email_content okOracle
                  (withGroups
                    ((CampaignRequest.mk [acct1] 1).accounts.get ⟨i, hi⟩)
                    ((fun _ _ => Group.A) i))
                  ((j : Int) + 1)
                  (CampaignRequest.mk [acct1] 1).number_of_emails
                  ((CampaignRequest.mk [acct1] 1).accounts.get
                    ⟨i, hi⟩).tone.str = .ok vs :=
  ⟨by decide,
   c1_response_shape okOracle (fun _ _ => Group.A)
     (CampaignRequest.mk [acct1] 1) (by decide)
     (fun _ => ⟨CompletionData.mk (some ["s1", "s2", "s3"]) (some "b")
       (some "c"), rfl, by decide, by decide, by decide⟩)⟩

/-- Mapping a list equals mapping its index range (panicking access is in
bounds throughout). -/
theorem map_eq_range_map {α β : Type} [Inhabited α] (l : List α)
    (g : α → β) :
    l.map g = (List.range l.length).map (fun i => g (l[i]!)) := by
  apply List.ext_getElem
  · simp
  · intro n h1 h2
    have hn : n < l.length := by simpa using h1
    rw [List.getElem_map, List.getElem_map, List.getElem_range,
      getElem!_pos l n hn]

/-- `mapIdx` equals mapping the index range. -/
theorem mapIdx_eq_range_map {α β : Type} [Inhabited α] (l : List α)
    (g : Nat → α → β) :
    l.mapIdx g = (List.range l.length).map (fun i => g i (l[i]!)) := by
  apply List.ext_getElem
  · simp
  · intro n h1 h2
    have hn : n < l.length := by simpa using h1
    rw [List.getElem_mapIdx, List.getElem_map, List.getElem_range,
      getElem!_pos l n hn]

/-- `flatMap` only depends on the function's values on the list. -/
theorem flatMap_congr {α β : Type} (l : List α) (f g : α → List β)
    (h : ∀ a ∈ l, f a = g a) : l.flatMap f = l.flatMap g := by
  rw [List.flatMap_def, List.flatMap_def, List.map_congr_left h]

/-- Flat-mapping uniform-length blocks over a range multiplies lengths. -/
theorem range_flatMap_length {β : Type} (n k : Nat) (f : Nat → List β)
    (h : ∀ i, i < n → (f i).length = k) :
    ((List.range n).flatMap f).length = n * k := by
  induction n with
  | zero => simp
  | succ m ih =>
    rw [List.range_succ, List.flatMap_append, List.length_append,
      ih (fun i hi => h i (by omega))]
    simp [h m (by omega), Nat.succ_mul]

/-- Modelled from the spec's words (§4.5): the data row the CSV formatter
is required to emit for the triple `(ci, ei, vi)` — account name,
`"Email {1-based stage}"`, `"Variant {1-based variant}"`, subject, the
candidate list joined by `"; "`, body, call to action, send time. -/
def csvRow (resp : CampaignResponse) (ci ei vi : Nat) : List String :=
  [(resp.campaigns[ci]!).account_name,
   "Email " ++ toString (ei + 1),
   "Variant " ++ toString (vi + 1),
   (((resp.campaigns[ci]!).emails[ei]!).variants[vi]!).subject,
   String.intercalate "; "
     ((((resp.campaigns[ci]!).emails[ei]!).variants[vi]!).sub_variants),
   (((resp.campaigns[ci]!).emails[ei]!).variants[vi]!).body,
   (((resp.campaigns[ci]!).emails[ei]!).variants[vi]!).call_to_action,
   (((resp.campaigns[ci]!).emails[ei]!).variants[vi]!).suggested_send_time]

/-- Modelled from the spec's words (§4.5): one data row per
(campaign, stage, variant) triple, in campaign-then-stage-then-variant
order. -/
def csvRowsSpec (resp : CampaignResponse) (C E V : Nat) :
    List (List String) :=
  (List.range C).flatMap (fun ci =>
    (List.range E).flatMap (fun ei =>
      (List.range V).map (fun vi => csvRow resp ci ei vi)))

/-- Claim C5: for a response with `C` campaigns of `E` emails of `V`
variants each, the CSV formatter emits the exact eight-label header row
followed by exactly one data row per (campaign, stage, variant) triple in
campaign-then-stage-then-variant order — `1 + C*E*V` rows in total — with
`Email`/`Variant` numbers rendered 1-based and the candidate list joined
by `"; "` (the row shape being `csvRow`). -/
theorem c5_csv_format (resp : CampaignResponse) (C E V : Nat)
    (hC : resp.campaigns.length = C)
    (hE : ∀ c ∈ resp.campaigns, c.emails.length = E)
    (hV : ∀ c ∈ resp.campaigns, ∀ e ∈ c.emails, e.variants.length = V) :
    export_campaigns_csv resp = csvHeader :: csvRowsSpec resp C E V
    ∧ (export_campaigns_csv resp).length = 1 + C * E * V
    ∧ csvHeader = ["Account Name", "Email Number", "Variant", "Subject",
        "Sub-Variants", "Body", "Call to Action",
        "Recommended Send Time"] := by
  have hmain : export_campaigns_csv resp =
      csvHeader :: csvRowsSpec resp C E V := by
    unfold export_campaigns_csv csvRowsSpec
    congr 1
    rw [List.flatMap_def, map_eq_range_map, hC, ← List.flatMap_def]
    apply flatMap_congr
    intro ci hci
    have hciC : ci < C := List.mem_range.mp hci
    have hciL : ci < resp.campaigns.length := by omega
    have hcmem : resp.campaigns[ci]! ∈ resp.campaigns := by
      rw [getElem!_pos resp.campaigns ci hciL]
      exact List.getElem_mem hciL
    rw [mapIdx_eq_range_map, hE _ hcmem, ← List.flatMap_def]
    apply flatMap_congr
    intro ei hei
    have heiE : ei < E := List.mem_range.mp hei
    have heiL : ei < (resp.campaigns[ci]!).emails.length := by
      rw [hE _ hcmem]; exact heiE
    have hemem : (resp.campaigns[ci]!).emails[ei]! ∈
        (resp.campaigns[ci]!).emails := by
      rw [getElem!_pos ((resp.campaigns[ci]!).emails) ei heiL]
      exact List.getElem_mem heiL
    rw [mapIdx_eq_range_map, hV _ hcmem _ hemem]
    apply List.map_congr_left
    intro vi hvi
    rfl
  have hlenSpec : (csvRowsSpec resp C E V).length = C * (E * V) := by
    unfold csvRowsSpec
    exact range_flatMap_length C (E * V) _ (fun ci hci =>
      range_flatMap_length E V _ (fun ei hei => by simp))
  refine ⟨hmain, ?_, rfl⟩
  rw [hmain, List.length_cons, hlenSpec]
  rw [Nat.mul_assoc]
  omega

/-- A concrete two-campaign response for the C5 witness. -/
def resp2 : CampaignResponse :=
  CampaignResponse.mk
    [Campaign.mk "A1" [Email.mk [acmeVariant]],
     Campaign.mk "A2" [Email.mk [acmeVariant]]]

/-- Witness for C5 at a concrete response (C = 2, E = 1, V = 1). -/
theorem c5_csv_format_witness :
    export_campaigns_csv resp2 = csvHeader :: csvRowsSpec resp2 2 1 1
    ∧ (export_campaigns_csv resp2).length = 1 + 2 * 1 * 1
    ∧ csvHeader = ["Account Name", "Email Number", "Variant", "Subject",
        "Sub-Variants", "Body", "Call to Action",
        "Recommended Send Time"] :=
  c5_csv_format resp2 2 1 1 (by decide) (by decide) (by decide)

end MainPy
